import Mathlib

/-!
CEP lookup race (`main.go`)

A shallow embedding of the Go program: the two provider adapters
`buscaBrasilAPI` and `buscaViaCEP`, and the coordinator in `main` that races
them against a one-second timer with a four-way `select`.

Modelling conventions
* A Go `error` is represented by its message (`err.Error()`), so
  `(*CepResponse, error)` becomes `Except String CepResponse` and
  `fmt.Errorf("...: %v", err)` becomes string concatenation.
* The network is a function from the requested URL to what `client.Get`
  returns; the response carries its status code and what `io.ReadAll` yields.
* A response body is either text that is not valid JSON (with the syntax
  error `encoding/json` reports for it) or the JSON value the text denotes;
  `json.Unmarshal` into a struct of string fields is modelled on that value.
* Instants are natural numbers of nanoseconds counted from the moment `main`
  enters its `select`; `time.Second` is `1000000000`.
-/

namespace CepRace

/-! ## Data model -/

/-- Go struct `BrasilAPIResponse` (JSON tags `cep`, `state`, `city`,
`neighborhood`, `street`, `service`). -/
structure BrasilAPIResponse where
  Cep : String
  State : String
  City : String
  Neighborhood : String
  Street : String
  Service : String
  deriving DecidableEq, Repr

/-- Go struct `ViaCEPResponse` (JSON tags `cep`, `logradouro`, `complemento`,
`bairro`, `localidade`, `uf`, `ibge`, `gia`, `ddd`, `siafi`). -/
structure ViaCEPResponse where
  Cep : String
  Logradouro : String
  Complemento : String
  Bairro : String
  Localidade : String
  Uf : String
  Ibge : String
  Gia : String
  Ddd : String
  Siafi : String
  deriving DecidableEq, Repr

/-- Go struct `CepResponse`, the record both adapters normalise into. -/
structure CepResponse where
  Cep : String
  Logradouro : String
  Bairro : String
  Localidade : String
  Uf : String
  ApiSource : String
  deriving DecidableEq, Repr

deriving instance DecidableEq for Except

/-! ## JSON values and `json.Unmarshal` into a struct of string fields -/

/-- A JSON value. A number keeps its literal text; an object keeps its members
in document order, duplicates included. -/
inductive Json where
  | null : Json
  | bool (b : Bool) : Json
  | num (literal : String) : Json
  | str (s : String) : Json
  | arr (items : List Json) : Json
  | obj (members : List (String × Json)) : Json

/-- The bytes `io.ReadAll` returned, seen through `encoding/json`: either not
valid JSON text, with the syntax error reported for it, or a JSON value. -/
inductive Body where
  | invalid (parseError : String) : Body
  | json (value : Json) : Body

/-- The word `encoding/json` uses for a value in an `UnmarshalTypeError`. -/
def Json.kind : Json → String
  | .null => "null"
  | .bool _ => "bool"
  | .num _ => "number"
  | .str _ => "string"
  | .arr _ => "array"
  | .obj _ => "object"

/-- Case folding of one rune as `encoding/json` does it for object keys: the
smallest rune of the simple-fold orbit. ASCII lower case goes to upper case,
and the two non-ASCII runes whose orbit holds an ASCII letter (U+017F and
U+212A) go to `S` and `K`; it is the identity on the remaining runes, which
never fold to an ASCII letter. -/
def foldRune (c : Char) : Char :=
  if 'a' ≤ c ∧ c ≤ 'z' then Char.ofNat (c.toNat - 32)
  else if c = Char.ofNat 0x17F then 'S'
  else if c = Char.ofNat 0x212A then 'K'
  else c

/-- Folded form of a JSON member name (`foldName`). -/
def foldName (s : String) : String := String.mk (s.data.map foldRune)

/-- The struct field a JSON member name is decoded into: the field whose
tag equals the name, else the first field whose tag equals it up to case
folding, else none (the member is skipped). -/
def findField (fields : List String) (key : String) : Option String :=
  match fields.find? (fun f => f = key) with
  | some f => some f
  | none => fields.find? (fun f => foldName f = foldName key)

/-- Decoder state while an object is being decoded into a struct whose fields
are all strings: the assignments made so far (latest first) and the first
saved `UnmarshalTypeError`. -/
structure DecodeState where
  assigned : List (String × String)
  savedError : Option String

/-- Message of the `UnmarshalTypeError` for a member of the wrong type. -/
def fieldTypeError (structName field : String) (v : Json) : String :=
  "json: cannot unmarshal " ++ v.kind ++ " into Go struct field " ++ structName ++ "." ++ field
    ++ " of type string"

/-- Message of the `UnmarshalTypeError` for a top-level value that is not an
object. -/
def valueTypeError (structName : String) (v : Json) : String :=
  "json: cannot unmarshal " ++ v.kind ++ " into Go value of type main." ++ structName

/-- Decoding of one object member: a member that names no field is skipped, a
string is stored, `null` leaves the field as it is, and every other value saves
a type error (only the first is kept) while decoding goes on. -/
def decodeMember (structName : String) (fields : List String) (st : DecodeState)
    (kv : String × Json) : DecodeState :=
  match findField fields kv.1 with
  | none => st
  | some f =>
    match kv.2 with
    | .str s => { assigned := (f, s) :: st.assigned, savedError := st.savedError }
    | .null => st
    | v =>
      match st.savedError with
      | some _ => st
      | none => { assigned := st.assigned, savedError := some (fieldTypeError structName f v) }

/-- Value of a struct field after decoding: its latest assignment, or the zero
value `""`. -/
def fieldValue (assigned : List (String × String)) (field : String) : String :=
  match assigned.find? (fun p => p.1 = field) with
  | some p => p.2
  | none => ""

/-- Decoding of a body into a zero-initialised struct of string fields,
returning the field assignments: invalid text fails with its syntax error, an
object is decoded member by member and fails with the first saved type error,
`null` leaves the struct untouched, any other value is a type error. -/
def unmarshalFields (structName : String) (fields : List String) (body : Body) :
    Except String (List (String × String)) :=
  match body with
  | .invalid e => .error e
  | .json (.obj members) =>
    let st := members.foldl (decodeMember structName fields) { assigned := [], savedError := none }
    match st.savedError with
    | some e => .error e
    | none => .ok st.assigned
  | .json .null => .ok []
  | .json v => .error (valueTypeError structName v)

/-- Tags of `BrasilAPIResponse`, in declaration order. -/
def brasilAPIFields : List String :=
  ["cep", "state", "city", "neighborhood", "street", "service"]

/-- Tags of `ViaCEPResponse`, in declaration order. -/
def viaCEPFields : List String :=
  ["cep", "logradouro", "complemento", "bairro", "localidade", "uf", "ibge", "gia", "ddd", "siafi"]

/-- The call `json.Unmarshal(body, &brasilAPIResponse)` on a fresh struct. -/
def unmarshalBrasilAPIResponse (body : Body) : Except String BrasilAPIResponse :=
  match unmarshalFields "BrasilAPIResponse" brasilAPIFields body with
  | .error e => .error e
  | .ok a =>
    .ok { Cep := fieldValue a "cep", State := fieldValue a "state", City := fieldValue a "city",
          Neighborhood := fieldValue a "neighborhood", Street := fieldValue a "street",
          Service := fieldValue a "service" }

/-- The call `json.Unmarshal(body, &viaCEPResponse)` on a fresh struct. -/
def unmarshalViaCEPResponse (body : Body) : Except String ViaCEPResponse :=
  match unmarshalFields "ViaCEPResponse" viaCEPFields body with
  | .error e => .error e
  | .ok a =>
    .ok { Cep := fieldValue a "cep", Logradouro := fieldValue a "logradouro",
          Complemento := fieldValue a "complemento", Bairro := fieldValue a "bairro",
          Localidade := fieldValue a "localidade", Uf := fieldValue a "uf",
          Ibge := fieldValue a "ibge", Gia := fieldValue a "gia", Ddd := fieldValue a "ddd",
          Siafi := fieldValue a "siafi" }

/-! ## Provider adapters -/

/-- An HTTP response as the adapters see it: the status code, and the result
of `io.ReadAll(resp.Body)`. -/
structure Response where
  StatusCode : Nat
  Body : Except String Body

/-- The network: what `client.Get(url)` returns for each URL. -/
abbrev Network := String → Except String Response

/-- URL requested by `buscaBrasilAPI`. -/
def brasilAPIURL (cep : String) : String := "https://brasilapi.com.br/api/cep/v1/" ++ cep

/-- URL requested by `buscaViaCEP`. -/
def viaCEPURL (cep : String) : String := "https://viacep.com.br/ws/" ++ cep ++ "/json/"

/-- Adapter `buscaBrasilAPI`. -/
def buscaBrasilAPI (net : Network) (cep : String) : Except String CepResponse :=
  match net (brasilAPIURL cep) with
  | .error err => .error ("erro ao fazer requisição: " ++ err)
  | .ok resp =>
    match resp.Body with
    | .error err => .error ("erro ao ler corpo da resposta: " ++ err)
    | .ok body =>
      match unmarshalBrasilAPIResponse body with
      | .error err => .error ("erro ao decodificar JSON: " ++ err)
      | .ok brasilAPIResponse =>
        .ok { Cep := brasilAPIResponse.Cep
              Logradouro := brasilAPIResponse.Street
              Bairro := brasilAPIResponse.Neighborhood
              Localidade := brasilAPIResponse.City
              Uf := brasilAPIResponse.State
              ApiSource := "BrasilAPI" }

/-- Adapter `buscaViaCEP`. -/
def buscaViaCEP (net : Network) (cep : String) : Except String CepResponse :=
  match net (viaCEPURL cep) with
  | .error err => .error ("erro ao fazer requisição: " ++ err)
  | .ok resp =>
    match resp.Body with
    | .error err => .error ("erro ao ler corpo da resposta: " ++ err)
    | .ok body =>
      match unmarshalViaCEPResponse body with
      | .error err => .error ("erro ao decodificar JSON: " ++ err)
      | .ok viaCEPResponse =>
        .ok { Cep := viaCEPResponse.Cep
              Logradouro := viaCEPResponse.Logradouro
              Bairro := viaCEPResponse.Bairro
              Localidade := viaCEPResponse.Localidade
              Uf := viaCEPResponse.Uf
              ApiSource := "ViaCEP" }

/-! ## The coordinator in `main` -/

/-- The constant `time.Second`, in nanoseconds. -/
def Second : Nat := 1000000000

/-- The three buffered channels made by `main` (capacity one each: `none` is an
empty buffer) and the channel returned by `time.After`, which holds a value
once the timer has fired. -/
structure Chans where
  canalBrasilAPI : Option CepResponse
  canalViaCEP : Option CepResponse
  canalErro : Option String
  timer : Bool

/-- The channels when `main` enters the `select`, nothing sent yet. -/
def Chans.empty : Chans :=
  { canalBrasilAPI := none, canalViaCEP := none, canalErro := none, timer := false }

/-- A send on a channel of capacity one with no receiver waiting: the value is
buffered when the buffer is free; otherwise the sender blocks and the buffer
keeps what it holds. -/
def send {α : Type} (buffer : Option α) (v : α) : Option α :=
  match buffer with
  | none => some v
  | some held => some held

/-- The first goroutine of `main`: it runs `buscaBrasilAPI` and sends either the
wrapped error on `canalErro` or the record on `canalBrasilAPI`. -/
def goBrasilAPI (net : Network) (cep : String) (ch : Chans) : Chans :=
  match buscaBrasilAPI net cep with
  | .error err => { ch with canalErro := send ch.canalErro ("erro na BrasilAPI: " ++ err) }
  | .ok resultado => { ch with canalBrasilAPI := send ch.canalBrasilAPI resultado }

/-- The second goroutine of `main`: it runs `buscaViaCEP` and sends either the
wrapped error on `canalErro` or the record on `canalViaCEP`. -/
def goViaCEP (net : Network) (cep : String) (ch : Chans) : Chans :=
  match buscaViaCEP net cep with
  | .error err => { ch with canalErro := send ch.canalErro ("erro no ViaCEP: " ++ err) }
  | .ok resultado => { ch with canalViaCEP := send ch.canalViaCEP resultado }

/-- What `main` reports, one constructor per `case` of the `select`, in source
order: `ViaCEP foi mais rápido!` with the record, `BrasilAPI foi mais rápida!`
with the record, `Erro:` with the error, and the timeout line. -/
inductive Outcome where
  | viaCEP (resultado : CepResponse) : Outcome
  | brasilAPI (resultado : CepResponse) : Outcome
  | erro (err : String) : Outcome
  | timeout : Outcome
  deriving DecidableEq, Repr

/-- The cases of the `select` that can proceed, in source order. -/
def readyCases (ch : Chans) : List Outcome :=
  (match ch.canalViaCEP with
    | some resultado => [Outcome.viaCEP resultado]
    | none => []) ++
  (match ch.canalBrasilAPI with
    | some resultado => [Outcome.brasilAPI resultado]
    | none => []) ++
  (match ch.canalErro with
    | some err => [Outcome.erro err]
    | none => []) ++
  (if ch.timer then [Outcome.timeout] else [])

/-- Timing of one run. The instants are those at which each goroutine reaches
its channel send (`0` when it got there before `main` entered the `select`);
`brasilAPIFirst` orders the two sends when they fall on the same instant, and
`pick` is the pseudo-random number `select` draws to choose among the cases
that can proceed. -/
structure Schedule where
  tBrasilAPI : Nat
  tViaCEP : Nat
  brasilAPIFirst : Bool
  pick : Nat

/-- Whether the BrasilAPI goroutine performs its send before the ViaCEP one. -/
def Schedule.brasilAPISendsFirst (s : Schedule) : Bool :=
  decide (s.tBrasilAPI < s.tViaCEP) || (decide (s.tBrasilAPI = s.tViaCEP) && s.brasilAPIFirst)

/-- The channels at instant `t`: every goroutine that has reached its send by
then has performed it, in order of arrival, and the timer channel holds a value
from `time.Second` on. -/
def chansAt (net : Network) (cep : String) (s : Schedule) (t : Nat) : Chans :=
  let runBrasilAPI : Chans → Chans := if s.tBrasilAPI ≤ t then goBrasilAPI net cep else id
  let runViaCEP : Chans → Chans := if s.tViaCEP ≤ t then goViaCEP net cep else id
  let ch :=
    if s.brasilAPISendsFirst then runViaCEP (runBrasilAPI Chans.empty)
    else runBrasilAPI (runViaCEP Chans.empty)
  { ch with timer := decide (Second ≤ t) }

/-- The instant at which the blocked `select` resumes: the first at which one
of its cases can proceed, that is the earliest of the two sends and the
timer. -/
def wakeInstant (s : Schedule) : Nat := min (min s.tBrasilAPI s.tViaCEP) Second

/-- The `select` statement: among the cases that can proceed one is chosen by
the drawn number; `none` when no case can proceed (the statement blocks). -/
def select (pick : Nat) (ch : Chans) : Option Outcome :=
  let ready := readyCases ch
  ready.get? (pick % ready.length)

/-- The body of `main` for a given postal code: both goroutines are started and
the `select` consumes exactly one event, at the first instant one is there. -/
def mainWith (cep : String) (net : Network) (s : Schedule) : Option Outcome :=
  select s.pick (chansAt net cep s (wakeInstant s))

/-- The program `main`, with its hard-coded postal code. -/
def main (net : Network) (s : Schedule) : Option Outcome := mainWith "01001000" net s

/-- The failure reasons an outcome carries. -/
def Outcome.failureReasons : Outcome → List String
  | .erro err => [err]
  | _ => []

/-! ## Concrete bodies, networks and schedules used in the examples -/

/-- The Provider A body of the field-mapping example, for any `service`. -/
def exampleBrasilAPIBody (service : String) : Body :=
  .json (.obj [("cep", .str "01001000"), ("state", .str "SP"), ("city", .str "São Paulo"),
    ("neighborhood", .str "Sé"), ("street", .str "Praça da Sé"), ("service", .str service)])

/-- The Provider B body of the field-mapping example, for any `complemento`. -/
def exampleViaCEPBody (complemento : String) : Body :=
  .json (.obj [("cep", .str "01001-000"), ("logradouro", .str "Praça da Sé"),
    ("complemento", .str complemento), ("bairro", .str "Sé"), ("localidade", .str "São Paulo"),
    ("uf", .str "SP")])

/-- The record `buscaBrasilAPI` makes of `exampleBrasilAPIBody`. -/
def exampleBrasilAPIRecord : CepResponse :=
  { Cep := "01001000", Logradouro := "Praça da Sé", Bairro := "Sé", Localidade := "São Paulo",
    Uf := "SP", ApiSource := "BrasilAPI" }

/-- The record `buscaViaCEP` makes of `exampleViaCEPBody`. -/
def exampleViaCEPRecord : CepResponse :=
  { Cep := "01001-000", Logradouro := "Praça da Sé", Bairro := "Sé", Localidade := "São Paulo",
    Uf := "SP", ApiSource := "ViaCEP" }

/-- A response with status 200 and the given body. -/
def ok200 (body : Body) : Except String Response := .ok { StatusCode := 200, Body := .ok body }

/-- A network for postal code `01001000` that answers the BrasilAPI URL with
`brasil` and every other URL with `viacep`. -/
def exampleNet (brasil viacep : Except String Response) : Network :=
  fun url => if url = brasilAPIURL "01001000" then brasil else viacep

/-- A schedule with the two send instants given, ties and draws set to the
first choice. -/
def scheduleAt (tBrasilAPI tViaCEP : Nat) : Schedule :=
  { tBrasilAPI := tBrasilAPI, tViaCEP := tViaCEP, brasilAPIFirst := true, pick := 0 }

/-! ## Auxiliary facts -/

theorem wakeInstant_of_brasilAPI_first (s : Schedule) (h1 : s.tBrasilAPI ≤ s.tViaCEP)
    (h2 : s.tBrasilAPI ≤ Second) : wakeInstant s = s.tBrasilAPI := by
  unfold wakeInstant; omega

theorem wakeInstant_of_viaCEP_first (s : Schedule) (h1 : s.tViaCEP ≤ s.tBrasilAPI)
    (h2 : s.tViaCEP ≤ Second) : wakeInstant s = s.tViaCEP := by
  unfold wakeInstant; omega

theorem wakeInstant_of_timer_first (s : Schedule) (h1 : Second ≤ s.tBrasilAPI)
    (h2 : Second ≤ s.tViaCEP) : wakeInstant s = Second := by
  unfold wakeInstant; omega

/-- When the BrasilAPI goroutine is strictly the first to send, before the
timer, `main` reports what that goroutine sent. -/
theorem mainWith_brasilAPI_first (cep : String) (net : Network) (s : Schedule)
    (h1 : s.tBrasilAPI < s.tViaCEP) (h2 : s.tBrasilAPI < Second) :
    mainWith cep net s =
      match buscaBrasilAPI net cep with
      | .ok resultado => some (Outcome.brasilAPI resultado)
      | .error err => some (Outcome.erro ("erro na BrasilAPI: " ++ err)) := by
  have hw := wakeInstant_of_brasilAPI_first s (le_of_lt h1) (le_of_lt h2)
  have h3 : ¬ s.tViaCEP ≤ s.tBrasilAPI := by omega
  have h4 : ¬ Second ≤ s.tBrasilAPI := by omega
  cases hB : buscaBrasilAPI net cep <;>
    simp [mainWith, hw, chansAt, Schedule.brasilAPISendsFirst, h1, h3, h4, goBrasilAPI, hB,
      Chans.empty, send, readyCases, select, Nat.mod_one]

/-- When the ViaCEP goroutine is strictly the first to send, before the timer,
`main` reports what that goroutine sent. -/
theorem mainWith_viaCEP_first (cep : String) (net : Network) (s : Schedule)
    (h1 : s.tViaCEP < s.tBrasilAPI) (h2 : s.tViaCEP < Second) :
    mainWith cep net s =
      match buscaViaCEP net cep with
      | .ok resultado => some (Outcome.viaCEP resultado)
      | .error err => some (Outcome.erro ("erro no ViaCEP: " ++ err)) := by
  have hw := wakeInstant_of_viaCEP_first s (le_of_lt h1) (le_of_lt h2)
  have h3 : ¬ s.tBrasilAPI ≤ s.tViaCEP := by omega
  have h3' : ¬ s.tBrasilAPI < s.tViaCEP := by omega
  have h3'' : ¬ s.tBrasilAPI = s.tViaCEP := by omega
  have h4 : ¬ Second ≤ s.tViaCEP := by omega
  cases hV : buscaViaCEP net cep <;>
    simp [mainWith, hw, chansAt, Schedule.brasilAPISendsFirst, h3, h3', h3'', h4, goViaCEP, hV,
      Chans.empty, send, readyCases, select, Nat.mod_one]

/-- When the timer fires strictly before either goroutine sends, `main`
reports the timeout. -/
theorem mainWith_timer_first (cep : String) (net : Network) (s : Schedule)
    (h1 : Second < s.tBrasilAPI) (h2 : Second < s.tViaCEP) :
    mainWith cep net s = some Outcome.timeout := by
  have hw := wakeInstant_of_timer_first s (le_of_lt h1) (le_of_lt h2)
  have h3 : ¬ s.tBrasilAPI ≤ Second := by omega
  have h4 : ¬ s.tViaCEP ≤ Second := by omega
  cases hb : s.brasilAPISendsFirst <;>
    simp [mainWith, hw, chansAt, hb, h3, h4, Chans.empty, readyCases, select, Nat.mod_one]

/-- When both goroutines send at the same instant, before the timer, `main`
reports what one of the two sent. -/
theorem mainWith_tie (cep : String) (net : Network) (s : Schedule)
    (h1 : s.tBrasilAPI = s.tViaCEP) (h2 : s.tBrasilAPI < Second) :
    (mainWith cep net s =
      match buscaBrasilAPI net cep with
      | .ok resultado => some (Outcome.brasilAPI resultado)
      | .error err => some (Outcome.erro ("erro na BrasilAPI: " ++ err))) ∨
    (mainWith cep net s =
      match buscaViaCEP net cep with
      | .ok resultado => some (Outcome.viaCEP resultado)
      | .error err => some (Outcome.erro ("erro no ViaCEP: " ++ err))) := by
  have hw := wakeInstant_of_brasilAPI_first s (le_of_eq h1) (le_of_lt h2)
  have h3 : s.tViaCEP ≤ s.tBrasilAPI := by omega
  have h4 : ¬ Second ≤ s.tBrasilAPI := by omega
  have h5 : ¬ s.tBrasilAPI < s.tViaCEP := by omega
  have h6 : ¬ Second ≤ s.tViaCEP := by omega
  cases hB : buscaBrasilAPI net cep <;> cases hV : buscaViaCEP net cep <;>
    cases hf : s.brasilAPIFirst <;>
    rcases Nat.mod_two_eq_zero_or_one s.pick with hp | hp <;>
    simp [mainWith, hw, chansAt, Schedule.brasilAPISendsFirst, h1, h3, h4, h5, h6, hf, goBrasilAPI,
      goViaCEP, hB, hV, Chans.empty, send, readyCases, select, Nat.mod_one, hp]

/-- When both goroutines fail at the same instant, before the timer, the error
that `main` reports is the one of the goroutine that sent first. -/
theorem mainWith_tie_errors (cep : String) (net : Network) (s : Schedule) (eB eV : String)
    (hB : buscaBrasilAPI net cep = .error eB) (hV : buscaViaCEP net cep = .error eV)
    (h1 : s.tBrasilAPI = s.tViaCEP) (h2 : s.tBrasilAPI < Second) :
    mainWith cep net s =
      some (Outcome.erro
        (if s.brasilAPIFirst then "erro na BrasilAPI: " ++ eB else "erro no ViaCEP: " ++ eV)) := by
  have hw := wakeInstant_of_brasilAPI_first s (le_of_eq h1) (le_of_lt h2)
  have h3 : s.tViaCEP ≤ s.tBrasilAPI := by omega
  have h4 : ¬ Second ≤ s.tBrasilAPI := by omega
  have h5 : ¬ s.tBrasilAPI < s.tViaCEP := by omega
  have h6 : ¬ Second ≤ s.tViaCEP := by omega
  cases hf : s.brasilAPIFirst <;>
    simp [mainWith, hw, chansAt, Schedule.brasilAPISendsFirst, h1, h3, h4, h5, h6, hf, goBrasilAPI,
      goViaCEP, hB, hV, Chans.empty, send, readyCases, select, Nat.mod_one]

/-- No case of the `select` can proceed before the wake instant. -/
theorem readyCases_before_wake (cep : String) (net : Network) (s : Schedule) (t : Nat)
    (h : t < wakeInstant s) : readyCases (chansAt net cep s t) = [] := by
  have h1 : ¬ s.tBrasilAPI ≤ t := by unfold wakeInstant at h; omega
  have h2 : ¬ s.tViaCEP ≤ t := by unfold wakeInstant at h; omega
  have h3 : ¬ Second ≤ t := by unfold wakeInstant at h; omega
  cases hb : s.brasilAPISendsFirst <;>
    simp [chansAt, hb, h1, h2, h3, Chans.empty, readyCases]

/-- Once the timer has fired the `select` does not block. -/
theorem select_of_timer (pick : Nat) (ch : Chans) (h : ch.timer = true) :
    ∃ o, select pick ch = some o := by
  have hne : readyCases ch ≠ [] := by simp [readyCases, h]
  have hlt : pick % (readyCases ch).length < (readyCases ch).length :=
    Nat.mod_lt _ (List.length_pos.mpr hne)
  exact ⟨(readyCases ch).get ⟨_, hlt⟩, by simp [select, List.getElem?_eq_getElem hlt]⟩

/-- The coordinator always reports an outcome: at the wake instant some case of
the `select` can proceed. -/
theorem mainWith_total (cep : String) (net : Network) (s : Schedule) :
    ∃ o, mainWith cep net s = some o := by
  rcases Nat.lt_trichotomy (min s.tBrasilAPI s.tViaCEP) Second with h | h | h
  · rcases Nat.lt_trichotomy s.tBrasilAPI s.tViaCEP with h1 | h1 | h1
    · rw [mainWith_brasilAPI_first cep net s h1 (by omega)]
      cases buscaBrasilAPI net cep <;> exact ⟨_, rfl⟩
    · rcases mainWith_tie cep net s h1 (by omega) with h2 | h2
      · rw [h2]; cases buscaBrasilAPI net cep <;> exact ⟨_, rfl⟩
      · rw [h2]; cases buscaViaCEP net cep <;> exact ⟨_, rfl⟩
    · rw [mainWith_viaCEP_first cep net s h1 (by omega)]
      cases buscaViaCEP net cep <;> exact ⟨_, rfl⟩
  · have hw : wakeInstant s = Second := by unfold wakeInstant; omega
    exact select_of_timer s.pick _ (by simp [chansAt, hw])
  · exact ⟨_, mainWith_timer_first cep net s (by omega) (by omega)⟩

/-- Every record `buscaBrasilAPI` returns is tagged `BrasilAPI`. -/
theorem buscaBrasilAPI_source (net : Network) (cep : String) (rec : CepResponse)
    (h : buscaBrasilAPI net cep = .ok rec) : rec.ApiSource = "BrasilAPI" := by
  unfold buscaBrasilAPI at h
  split at h
  · cases h
  · split at h
    · cases h
    · split at h
      · cases h
      · cases h; rfl

/-- Every record `buscaViaCEP` returns is tagged `ViaCEP`. -/
theorem buscaViaCEP_source (net : Network) (cep : String) (rec : CepResponse)
    (h : buscaViaCEP net cep = .ok rec) : rec.ApiSource = "ViaCEP" := by
  unfold buscaViaCEP at h
  split at h
  · cases h
  · split at h
    · cases h
    · split at h
      · cases h
      · cases h; rfl

/-- The two wrapped error messages never coincide. -/
theorem erro_brasilAPI_ne_erro_viaCEP (e1 e2 : String) :
    "erro na BrasilAPI: " ++ e1 ≠ "erro no ViaCEP: " ++ e2 := by
  intro h
  have h2 := congrArg String.data h
  simp [String.data_append] at h2

/-- The two adapters never request the same URL. -/
theorem brasilAPIURL_ne_viaCEPURL (cep cep' : String) : brasilAPIURL cep ≠ viaCEPURL cep' := by
  intro h
  have h2 := congrArg String.data h
  simp [brasilAPIURL, viaCEPURL, String.data_append] at h2

/-- A member name that is a tag of the struct is decoded into that field. -/
theorem findField_of_mem (fields : List String) (key : String) (h : key ∈ fields) :
    findField fields key = some key := by
  have hfind : fields.find? (fun f => decide (f = key)) = some key := by
    induction fields with
    | nil => cases h
    | cons f fs ih =>
      by_cases hf : f = key
      · simp [List.find?, hf]
      · have hmem : key ∈ fs := by
          rcases List.mem_cons.mp h with h1 | h1
          · exact absurd h1.symm hf
          · exact h1
        simp [List.find?, hf, ih hmem]
  simp [findField, hfind]

/-- A saved type error is never dropped by the members decoded after it. -/
theorem decodeMember_keeps_savedError (structName : String) (fields : List String)
    (st : DecodeState) (kv : String × Json) (e : String) (h : st.savedError = some e) :
    (decodeMember structName fields st kv).savedError = some e := by
  obtain ⟨k, v⟩ := kv
  unfold decodeMember
  cases findField fields k with
  | none => simpa using h
  | some f => cases v <;> simp [h]

theorem foldl_decodeMember_keeps_savedError (structName : String) (fields : List String)
    (members : List (String × Json)) (st : DecodeState) (e : String)
    (h : st.savedError = some e) :
    (members.foldl (decodeMember structName fields) st).savedError = some e := by
  induction members generalizing st with
  | nil => simpa using h
  | cons kv rest ih =>
    simp only [List.foldl_cons]
    exact ih _ (decodeMember_keeps_savedError structName fields st kv e h)

/-- A member that names a field and holds neither a string nor `null` leaves a
saved type error. -/
theorem decodeMember_wrong_type (structName : String) (fields : List String)
    (st : DecodeState) (k f : String) (v : Json) (hf : findField fields k = some f)
    (hstr : ∀ x, v ≠ .str x) (hnull : v ≠ .null) :
    ∃ e, (decodeMember structName fields st (k, v)).savedError = some e := by
  unfold decodeMember
  cases hs : st.savedError with
  | some e0 =>
    refine ⟨e0, ?_⟩
    cases v <;> simp [hf, hs]
  | none =>
    cases v with
    | null => exact absurd rfl hnull
    | str x => exact absurd rfl (hstr x)
    | bool b => exact ⟨fieldTypeError structName f (.bool b), by simp [hf, hs]⟩
    | num n => exact ⟨fieldTypeError structName f (.num n), by simp [hf, hs]⟩
    | arr items => exact ⟨fieldTypeError structName f (.arr items), by simp [hf, hs]⟩
    | obj members => exact ⟨fieldTypeError structName f (.obj members), by simp [hf, hs]⟩

theorem foldl_decodeMember_wrong_type (structName : String) (fields : List String)
    (members : List (String × Json)) (st : DecodeState) (k f : String) (v : Json)
    (hmem : (k, v) ∈ members) (hf : findField fields k = some f)
    (hstr : ∀ x, v ≠ .str x) (hnull : v ≠ .null) :
    ∃ e, (members.foldl (decodeMember structName fields) st).savedError = some e := by
  induction members generalizing st with
  | nil => cases hmem
  | cons kv rest ih =>
    simp only [List.foldl_cons]
    rcases List.mem_cons.mp hmem with h1 | h1
    · obtain ⟨e, he⟩ := decodeMember_wrong_type structName fields st k f v hf hstr hnull
      exact ⟨e, foldl_decodeMember_keeps_savedError structName fields rest _ e (h1 ▸ he)⟩
    · exact ih _ h1

/-- An object with a wrongly typed member for one of the struct's tags does not
decode. -/
theorem unmarshalFields_wrong_type (structName : String) (fields : List String)
    (members : List (String × Json)) (k : String) (v : Json)
    (hmem : (k, v) ∈ members) (hk : k ∈ fields) (hstr : ∀ x, v ≠ .str x) (hnull : v ≠ .null) :
    ∃ e, unmarshalFields structName fields (.json (.obj members)) = .error e := by
  obtain ⟨e, he⟩ := foldl_decodeMember_wrong_type structName fields members
    { assigned := [], savedError := none } k k v hmem (findField_of_mem fields k hk) hstr hnull
  exact ⟨e, by simp [unmarshalFields, he]⟩

/-- What `select` returns is one of the cases that can proceed. -/
theorem select_mem (pick : Nat) (ch : Chans) (o : Outcome) (h : select pick ch = some o) :
    o ∈ readyCases ch := by
  unfold select at h
  exact List.get?_mem h

/-- A record on `canalBrasilAPI` is the one `buscaBrasilAPI` returned. -/
theorem chansAt_canalBrasilAPI (net : Network) (cep : String) (s : Schedule) (t : Nat)
    (r : CepResponse) (h : (chansAt net cep s t).canalBrasilAPI = some r) :
    buscaBrasilAPI net cep = .ok r := by
  unfold chansAt at h
  cases hB : buscaBrasilAPI net cep <;> cases hV : buscaViaCEP net cep <;>
    cases hf : s.brasilAPISendsFirst <;>
    by_cases h1 : s.tBrasilAPI ≤ t <;> by_cases h2 : s.tViaCEP ≤ t <;>
    simp_all [goBrasilAPI, goViaCEP, send, Chans.empty]

/-- A record on `canalViaCEP` is the one `buscaViaCEP` returned. -/
theorem chansAt_canalViaCEP (net : Network) (cep : String) (s : Schedule) (t : Nat)
    (r : CepResponse) (h : (chansAt net cep s t).canalViaCEP = some r) :
    buscaViaCEP net cep = .ok r := by
  unfold chansAt at h
  cases hB : buscaBrasilAPI net cep <;> cases hV : buscaViaCEP net cep <;>
    cases hf : s.brasilAPISendsFirst <;>
    by_cases h1 : s.tBrasilAPI ≤ t <;> by_cases h2 : s.tViaCEP ≤ t <;>
    simp_all [goBrasilAPI, goViaCEP, send, Chans.empty]

/-- An error on `canalErro` is the wrapped error of an adapter that failed. -/
theorem chansAt_canalErro (net : Network) (cep : String) (s : Schedule) (t : Nat)
    (m : String) (h : (chansAt net cep s t).canalErro = some m) :
    (∃ e, buscaBrasilAPI net cep = .error e ∧ m = "erro na BrasilAPI: " ++ e) ∨
      (∃ e, buscaViaCEP net cep = .error e ∧ m = "erro no ViaCEP: " ++ e) := by
  unfold chansAt at h
  cases hB : buscaBrasilAPI net cep <;> cases hV : buscaViaCEP net cep <;>
    cases hf : s.brasilAPISendsFirst <;>
    by_cases h1 : s.tBrasilAPI ≤ t <;> by_cases h2 : s.tViaCEP ≤ t <;>
    simp_all [goBrasilAPI, goViaCEP, send, Chans.empty]

/-- A record `main` reports as the BrasilAPI result is the adapter's record. -/
theorem mainWith_brasilAPI_record (cep : String) (net : Network) (s : Schedule)
    (r : CepResponse) (h : mainWith cep net s = some (Outcome.brasilAPI r)) :
    buscaBrasilAPI net cep = .ok r := by
  have hmem := select_mem _ _ _ h
  apply chansAt_canalBrasilAPI net cep s (wakeInstant s)
  generalize chansAt net cep s (wakeInstant s) = ch at hmem
  cases h1 : ch.canalViaCEP <;> cases h2 : ch.canalBrasilAPI <;> cases h3 : ch.canalErro <;>
    cases h4 : ch.timer <;> simp_all [readyCases]

/-- A record `main` reports as the ViaCEP result is the adapter's record. -/
theorem mainWith_viaCEP_record (cep : String) (net : Network) (s : Schedule)
    (r : CepResponse) (h : mainWith cep net s = some (Outcome.viaCEP r)) :
    buscaViaCEP net cep = .ok r := by
  have hmem := select_mem _ _ _ h
  apply chansAt_canalViaCEP net cep s (wakeInstant s)
  generalize chansAt net cep s (wakeInstant s) = ch at hmem
  cases h1 : ch.canalViaCEP <;> cases h2 : ch.canalBrasilAPI <;> cases h3 : ch.canalErro <;>
    cases h4 : ch.timer <;> simp_all [readyCases]

/-- An error `main` reports is the wrapped error of an adapter that failed. -/
theorem mainWith_erro_origin (cep : String) (net : Network) (s : Schedule)
    (m : String) (h : mainWith cep net s = some (Outcome.erro m)) :
    (∃ e, buscaBrasilAPI net cep = .error e ∧ m = "erro na BrasilAPI: " ++ e) ∨
      (∃ e, buscaViaCEP net cep = .error e ∧ m = "erro no ViaCEP: " ++ e) := by
  have hmem := select_mem _ _ _ h
  apply chansAt_canalErro net cep s (wakeInstant s)
  generalize chansAt net cep s (wakeInstant s) = ch at hmem
  cases h1 : ch.canalViaCEP <;> cases h2 : ch.canalBrasilAPI <;> cases h3 : ch.canalErro <;>
    cases h4 : ch.timer <;> simp_all [readyCases]

/-! ## The claims about the coordinator -/

/-- C3: when neither goroutine has sent a record or an error by the time the
one-second timer fires, `main` reports the timeout, whatever the adapters
return afterwards: no record is reported. -/
theorem timeout_when_timer_fires_first (cep : String) (net : Network) (s : Schedule)
    (hB : Second < s.tBrasilAPI) (hV : Second < s.tViaCEP) :
    mainWith cep net s = some Outcome.timeout ∧
      ∀ resultado, mainWith cep net s ≠ some (Outcome.viaCEP resultado) ∧
        mainWith cep net s ≠ some (Outcome.brasilAPI resultado) := by
  have h := mainWith_timer_first cep net s hB hV
  refine ⟨h, fun resultado => ?_⟩
  rw [h]
  exact ⟨by simp, by simp⟩

/-- Instance of C3: both providers answer with a well-formed body, but only
after the deadline; `main` reports the timeout. -/
theorem timeout_when_timer_fires_first_witness :
    Second < (scheduleAt 1200000000 1500000000).tBrasilAPI ∧
    Second < (scheduleAt 1200000000 1500000000).tViaCEP ∧
    buscaViaCEP (exampleNet (ok200 (exampleBrasilAPIBody "x")) (ok200 (exampleViaCEPBody "lado ímpar")))
      "01001000" = .ok exampleViaCEPRecord ∧
    main (exampleNet (ok200 (exampleBrasilAPIBody "x")) (ok200 (exampleViaCEPBody "lado ímpar")))
      (scheduleAt 1200000000 1500000000) = some Outcome.timeout :=
  ⟨by decide, by decide, by decide,
    (timeout_when_timer_fires_first "01001000" _ (scheduleAt 1200000000 1500000000)
      (by decide) (by decide)).1⟩

/-- C4: when both adapters succeed before the deadline, `main` reports a
success carrying exactly one record, the BrasilAPI adapter's or the ViaCEP
adapter's. -/
theorem one_record_when_both_succeed (cep : String) (net : Network) (s : Schedule)
    (rB rV : CepResponse) (hB : buscaBrasilAPI net cep = .ok rB)
    (hV : buscaViaCEP net cep = .ok rV) (htB : s.tBrasilAPI < Second)
    (htV : s.tViaCEP < Second) :
    mainWith cep net s = some (Outcome.brasilAPI rB) ∨
      mainWith cep net s = some (Outcome.viaCEP rV) := by
  rcases Nat.lt_trichotomy s.tBrasilAPI s.tViaCEP with h | h | h
  · left; rw [mainWith_brasilAPI_first cep net s h htB, hB]
  · rcases mainWith_tie cep net s h htB with h2 | h2
    · left; rw [h2, hB]
    · right; rw [h2, hV]
  · right; rw [mainWith_viaCEP_first cep net s h htV, hV]

/-- Instance of C4: both providers answer in time with the example bodies. -/
theorem one_record_when_both_succeed_witness :
    main (exampleNet (ok200 (exampleBrasilAPIBody "x")) (ok200 (exampleViaCEPBody "lado ímpar")))
        (scheduleAt 300000000 200000000) = some (Outcome.brasilAPI exampleBrasilAPIRecord) ∨
      main (exampleNet (ok200 (exampleBrasilAPIBody "x")) (ok200 (exampleViaCEPBody "lado ímpar")))
        (scheduleAt 300000000 200000000) = some (Outcome.viaCEP exampleViaCEPRecord) :=
  one_record_when_both_succeed "01001000" _ (scheduleAt 300000000 200000000) _ _
    (by decide) (by decide) (by decide) (by decide)

/-- C1, as the code has it: in a race in which exactly one adapter succeeds and
the other fails, both before the deadline, `main` reports what the first
goroutine to send has sent. It is the successful adapter's record, with that
adapter's `ApiSource` tag, when the successful adapter is the first to finish,
and the failing adapter's wrapped error when the failing one is. -/
theorem first_sender_reported_when_one_adapter_fails (cep : String) (net : Network)
    (s : Schedule) (htB : s.tBrasilAPI < Second) (htV : s.tViaCEP < Second) :
    (∀ rec e, buscaBrasilAPI net cep = .ok rec → buscaViaCEP net cep = .error e →
      rec.ApiSource = "BrasilAPI" ∧
      (s.tBrasilAPI < s.tViaCEP → mainWith cep net s = some (Outcome.brasilAPI rec)) ∧
      (s.tViaCEP < s.tBrasilAPI →
        mainWith cep net s = some (Outcome.erro ("erro no ViaCEP: " ++ e))) ∧
      (mainWith cep net s = some (Outcome.brasilAPI rec) ∨
        mainWith cep net s = some (Outcome.erro ("erro no ViaCEP: " ++ e)))) ∧
    (∀ rec e, buscaViaCEP net cep = .ok rec → buscaBrasilAPI net cep = .error e →
      rec.ApiSource = "ViaCEP" ∧
      (s.tViaCEP < s.tBrasilAPI → mainWith cep net s = some (Outcome.viaCEP rec)) ∧
      (s.tBrasilAPI < s.tViaCEP →
        mainWith cep net s = some (Outcome.erro ("erro na BrasilAPI: " ++ e))) ∧
      (mainWith cep net s = some (Outcome.viaCEP rec) ∨
        mainWith cep net s = some (Outcome.erro ("erro na BrasilAPI: " ++ e)))) := by
  constructor
  · intro rec e hB hV
    have hfirst : s.tBrasilAPI < s.tViaCEP → mainWith cep net s = some (Outcome.brasilAPI rec) :=
      fun h => by rw [mainWith_brasilAPI_first cep net s h htB, hB]
    have hlast : s.tViaCEP < s.tBrasilAPI →
        mainWith cep net s = some (Outcome.erro ("erro no ViaCEP: " ++ e)) :=
      fun h => by rw [mainWith_viaCEP_first cep net s h htV, hV]
    refine ⟨buscaBrasilAPI_source net cep rec hB, hfirst, hlast, ?_⟩
    rcases Nat.lt_trichotomy s.tBrasilAPI s.tViaCEP with h | h | h
    · exact Or.inl (hfirst h)
    · rcases mainWith_tie cep net s h htB with h2 | h2
      · left; rw [h2, hB]
      · right; rw [h2, hV]
    · exact Or.inr (hlast h)
  · intro rec e hV hB
    have hfirst : s.tViaCEP < s.tBrasilAPI → mainWith cep net s = some (Outcome.viaCEP rec) :=
      fun h => by rw [mainWith_viaCEP_first cep net s h htV, hV]
    have hlast : s.tBrasilAPI < s.tViaCEP →
        mainWith cep net s = some (Outcome.erro ("erro na BrasilAPI: " ++ e)) :=
      fun h => by rw [mainWith_brasilAPI_first cep net s h htB, hB]
    refine ⟨buscaViaCEP_source net cep rec hV, hfirst, hlast, ?_⟩
    rcases Nat.lt_trichotomy s.tBrasilAPI s.tViaCEP with h | h | h
    · exact Or.inr (hlast h)
    · rcases mainWith_tie cep net s h htB with h2 | h2
      · right; rw [h2, hB]
      · left; rw [h2, hV]
    · exact Or.inl (hfirst h)

/-- Instance of C1 as the code has it: BrasilAPI fails after 200 ms, ViaCEP has
answered after 100 ms, and `main` reports the ViaCEP record. -/
theorem first_sender_reported_when_one_adapter_fails_witness :
    main (exampleNet (.error "connection refused") (ok200 (exampleViaCEPBody "lado ímpar")))
      (scheduleAt 200000000 100000000) = some (Outcome.viaCEP exampleViaCEPRecord) :=
  ((first_sender_reported_when_one_adapter_fails "01001000"
      (exampleNet (.error "connection refused") (ok200 (exampleViaCEPBody "lado ímpar")))
      (scheduleAt 200000000 100000000) (by decide) (by decide)).2
    exampleViaCEPRecord "erro ao fazer requisição: connection refused"
    (by decide) (by decide)).2.1 (by decide)

/-- C1 fails as stated: BrasilAPI fails after 100 ms and ViaCEP succeeds after
200 ms, both well before the deadline, and `main` reports the BrasilAPI error,
not the ViaCEP record. -/
theorem failure_reported_before_later_success :
    buscaBrasilAPI (exampleNet (.error "connection refused") (ok200 (exampleViaCEPBody "lado ímpar")))
        "01001000" = .error "erro ao fazer requisição: connection refused" ∧
      buscaViaCEP (exampleNet (.error "connection refused") (ok200 (exampleViaCEPBody "lado ímpar")))
        "01001000" = .ok exampleViaCEPRecord ∧
      (scheduleAt 100000000 200000000).tBrasilAPI < Second ∧ (scheduleAt 100000000 200000000).tViaCEP < Second ∧
      main (exampleNet (.error "connection refused") (ok200 (exampleViaCEPBody "lado ímpar")))
        (scheduleAt 100000000 200000000) =
          some (Outcome.erro "erro na BrasilAPI: erro ao fazer requisição: connection refused") ∧
      main (exampleNet (.error "connection refused") (ok200 (exampleViaCEPBody "lado ímpar")))
        (scheduleAt 100000000 200000000) ≠ some (Outcome.viaCEP exampleViaCEPRecord) := by
  decide

/-- C2, as the code has it: when both adapters fail and one of them has failed
before the deadline, `main` reports a single failure reason and no aggregate:
the wrapped error of the adapter that failed first (at the same instant, of
the goroutine that sent first); the other adapter's error is not reported. -/
theorem single_failure_reported_when_both_fail (cep : String) (net : Network) (s : Schedule)
    (eB eV : String) (hB : buscaBrasilAPI net cep = .error eB)
    (hV : buscaViaCEP net cep = .error eV)
    (ht : s.tBrasilAPI < Second ∨ s.tViaCEP < Second) :
    (s.tBrasilAPI < s.tViaCEP →
      mainWith cep net s = some (Outcome.erro ("erro na BrasilAPI: " ++ eB))) ∧
    (s.tViaCEP < s.tBrasilAPI →
      mainWith cep net s = some (Outcome.erro ("erro no ViaCEP: " ++ eV))) ∧
    (s.tBrasilAPI = s.tViaCEP →
      mainWith cep net s = some (Outcome.erro
        (if s.brasilAPIFirst then "erro na BrasilAPI: " ++ eB else "erro no ViaCEP: " ++ eV))) ∧
    ∃ o, mainWith cep net s = some o ∧ o.failureReasons.length = 1 ∧
      (o = Outcome.erro ("erro na BrasilAPI: " ++ eB) ∨
        o = Outcome.erro ("erro no ViaCEP: " ++ eV)) := by
  have h1 : s.tBrasilAPI < s.tViaCEP →
      mainWith cep net s = some (Outcome.erro ("erro na BrasilAPI: " ++ eB)) :=
    fun h => by rw [mainWith_brasilAPI_first cep net s h (by omega), hB]
  have h2 : s.tViaCEP < s.tBrasilAPI →
      mainWith cep net s = some (Outcome.erro ("erro no ViaCEP: " ++ eV)) :=
    fun h => by rw [mainWith_viaCEP_first cep net s h (by omega), hV]
  have h3 : s.tBrasilAPI = s.tViaCEP →
      mainWith cep net s = some (Outcome.erro
        (if s.brasilAPIFirst then "erro na BrasilAPI: " ++ eB else "erro no ViaCEP: " ++ eV)) :=
    fun h => mainWith_tie_errors cep net s eB eV hB hV h (by omega)
  refine ⟨h1, h2, h3, ?_⟩
  rcases Nat.lt_trichotomy s.tBrasilAPI s.tViaCEP with h | h | h
  · exact ⟨_, h1 h, rfl, Or.inl rfl⟩
  · cases hf : s.brasilAPIFirst
    · exact ⟨_, h3 h, rfl, Or.inr (by simp [hf])⟩
    · exact ⟨_, h3 h, rfl, Or.inl (by simp [hf])⟩
  · exact ⟨_, h2 h, rfl, Or.inr rfl⟩

/-- Instance of C2 as the code has it: ViaCEP fails after 100 ms with a body
that is not JSON, BrasilAPI fails after 200 ms; `main` reports the ViaCEP error
alone. -/
theorem single_failure_reported_when_both_fail_witness :
    main (exampleNet (.error "connection refused") (ok200 (.invalid "unexpected end of JSON input")))
      (scheduleAt 200000000 100000000) =
        some (Outcome.erro "erro no ViaCEP: erro ao decodificar JSON: unexpected end of JSON input") :=
  (single_failure_reported_when_both_fail "01001000"
    (exampleNet (.error "connection refused") (ok200 (.invalid "unexpected end of JSON input")))
    (scheduleAt 200000000 100000000) "erro ao fazer requisição: connection refused"
    "erro ao decodificar JSON: unexpected end of JSON input"
    (by decide) (by decide) (Or.inl (by decide))).2.1 (by decide)

/-- C2 fails as stated: both adapters fail, BrasilAPI after 100 ms and ViaCEP
after 200 ms, and what `main` reports carries one failure reason, the BrasilAPI
one, not two. -/
theorem one_reason_reported_when_both_fail :
    buscaBrasilAPI (exampleNet (.error "connection refused") (.error "no such host"))
        "01001000" = .error "erro ao fazer requisição: connection refused" ∧
      buscaViaCEP (exampleNet (.error "connection refused") (.error "no such host"))
        "01001000" = .error "erro ao fazer requisição: no such host" ∧
      main (exampleNet (.error "connection refused") (.error "no such host")) (scheduleAt 100000000 200000000) =
        some (Outcome.erro "erro na BrasilAPI: erro ao fazer requisição: connection refused") ∧
      (main (exampleNet (.error "connection refused") (.error "no such host"))
        (scheduleAt 100000000 200000000)).map Outcome.failureReasons =
          some ["erro na BrasilAPI: erro ao fazer requisição: connection refused"] ∧
      (main (exampleNet (.error "connection refused") (.error "no such host"))
        (scheduleAt 100000000 200000000)).map (fun o => o.failureReasons.length) ≠ some 2 := by
  decide

/-! ## The claims about the adapters -/

/-- C5: for every body that decodes into `BrasilAPIResponse`, `buscaBrasilAPI`
returns the record with `Cep = cep`, `Logradouro = street`,
`Bairro = neighborhood`, `Localidade = city`, `Uf = state` and
`ApiSource = "BrasilAPI"`, whatever the `service` field holds; the example body
yields the example record for every value of `service`, `x` included. -/
theorem buscaBrasilAPI_maps_fields :
    (∀ (net : Network) (cep : String) (resp : Response) (body : Body) (d : BrasilAPIResponse),
      net (brasilAPIURL cep) = .ok resp → resp.Body = .ok body →
      unmarshalBrasilAPIResponse body = .ok d →
      buscaBrasilAPI net cep =
        .ok { Cep := d.Cep, Logradouro := d.Street, Bairro := d.Neighborhood,
              Localidade := d.City, Uf := d.State, ApiSource := "BrasilAPI" }) ∧
    (∀ (net : Network) (cep : String) (status : Nat) (service : String),
      net (brasilAPIURL cep) =
        .ok { StatusCode := status, Body := .ok (exampleBrasilAPIBody service) } →
      buscaBrasilAPI net cep =
        .ok { Cep := "01001000", Logradouro := "Praça da Sé", Bairro := "Sé",
              Localidade := "São Paulo", Uf := "SP", ApiSource := "BrasilAPI" }) := by
  constructor
  · intro net cep resp body d hget hread hdec
    simp [buscaBrasilAPI, hget, hread, hdec]
  · intro net cep status service hget
    have hdec : unmarshalBrasilAPIResponse (exampleBrasilAPIBody service) =
        .ok { Cep := "01001000", State := "SP", City := "São Paulo", Neighborhood := "Sé",
              Street := "Praça da Sé", Service := service } := rfl
    simp [buscaBrasilAPI, hget, hdec]

/-- Instance of C5: the example body with `service` set to `x`, served for the
postal code of `main`. -/
theorem buscaBrasilAPI_maps_fields_witness :
    buscaBrasilAPI (exampleNet (ok200 (exampleBrasilAPIBody "x")) (.error "no such host"))
      "01001000" =
        .ok { Cep := "01001000", Logradouro := "Praça da Sé", Bairro := "Sé",
              Localidade := "São Paulo", Uf := "SP", ApiSource := "BrasilAPI" } :=
  buscaBrasilAPI_maps_fields.2 _ "01001000" 200 "x" rfl

/-- C6: for every body that decodes into `ViaCEPResponse`, `buscaViaCEP` returns
the record with `Cep = cep`, `Logradouro = logradouro`, `Bairro = bairro`,
`Localidade = localidade`, `Uf = uf` and `ApiSource = "ViaCEP"`, whatever the
`complemento`, `ibge`, `gia`, `ddd` and `siafi` fields hold; the example body
yields the example record for every `complemento`, `lado ímpar` included. -/
theorem buscaViaCEP_maps_fields :
    (∀ (net : Network) (cep : String) (resp : Response) (body : Body) (d : ViaCEPResponse),
      net (viaCEPURL cep) = .ok resp → resp.Body = .ok body →
      unmarshalViaCEPResponse body = .ok d →
      buscaViaCEP net cep =
        .ok { Cep := d.Cep, Logradouro := d.Logradouro, Bairro := d.Bairro,
              Localidade := d.Localidade, Uf := d.Uf, ApiSource := "ViaCEP" }) ∧
    (∀ (net : Network) (cep : String) (status : Nat) (complemento : String),
      net (viaCEPURL cep) =
        .ok { StatusCode := status, Body := .ok (exampleViaCEPBody complemento) } →
      buscaViaCEP net cep =
        .ok { Cep := "01001-000", Logradouro := "Praça da Sé", Bairro := "Sé",
              Localidade := "São Paulo", Uf := "SP", ApiSource := "ViaCEP" }) := by
  constructor
  · intro net cep resp body d hget hread hdec
    simp [buscaViaCEP, hget, hread, hdec]
  · intro net cep status complemento hget
    have hdec : unmarshalViaCEPResponse (exampleViaCEPBody complemento) =
        .ok { Cep := "01001-000", Logradouro := "Praça da Sé", Complemento := complemento,
              Bairro := "Sé", Localidade := "São Paulo", Uf := "SP", Ibge := "", Gia := "",
              Ddd := "", Siafi := "" } := rfl
    simp [buscaViaCEP, hget, hdec]

/-- Instance of C6: the example body with `complemento` set to `lado ímpar`,
served for the postal code of `main`. -/
theorem buscaViaCEP_maps_fields_witness :
    buscaViaCEP (exampleNet (.error "no such host") (ok200 (exampleViaCEPBody "lado ímpar")))
      "01001000" =
        .ok { Cep := "01001-000", Logradouro := "Praça da Sé", Bairro := "Sé",
              Localidade := "São Paulo", Uf := "SP", ApiSource := "ViaCEP" } :=
  buscaViaCEP_maps_fields.2 _ "01001000" 200 "lado ímpar" rfl

/-- C7: a body that fails JSON decoding into the provider's struct makes the
adapter return no record and the failure `erro ao decodificar JSON: ...` with
the decode reason. Text that is not JSON and an object holding a wrongly typed
member for one of the struct's tags are such bodies. The decode reason differs
from the request-failure and body-read-failure reasons, and what one adapter
receives does not change the other adapter's outcome. -/
theorem decode_failure_reported (net : Network) (cep : String) :
    (∀ resp body e, net (brasilAPIURL cep) = .ok resp → resp.Body = .ok body →
      unmarshalBrasilAPIResponse body = .error e →
      buscaBrasilAPI net cep = .error ("erro ao decodificar JSON: " ++ e)) ∧
    (∀ resp body e, net (viaCEPURL cep) = .ok resp → resp.Body = .ok body →
      unmarshalViaCEPResponse body = .error e →
      buscaViaCEP net cep = .error ("erro ao decodificar JSON: " ++ e)) ∧
    (∀ msg, unmarshalBrasilAPIResponse (.invalid msg) = .error msg ∧
      unmarshalViaCEPResponse (.invalid msg) = .error msg) ∧
    (∀ members k v, (k, v) ∈ members → (∀ x, v ≠ .str x) → v ≠ .null →
      (k ∈ brasilAPIFields → ∃ e, unmarshalBrasilAPIResponse (.json (.obj members)) = .error e) ∧
      (k ∈ viaCEPFields → ∃ e, unmarshalViaCEPResponse (.json (.obj members)) = .error e)) ∧
    (∀ e e', "erro ao decodificar JSON: " ++ e ≠ "erro ao fazer requisição: " ++ e' ∧
      "erro ao decodificar JSON: " ++ e ≠ "erro ao ler corpo da resposta: " ++ e') ∧
    (∀ r, buscaViaCEP (Function.update net (brasilAPIURL cep) r) cep = buscaViaCEP net cep) ∧
    (∀ r, buscaBrasilAPI (Function.update net (viaCEPURL cep) r) cep =
      buscaBrasilAPI net cep) := by
  refine ⟨?_, ?_, ?_, ?_, ?_, ?_, ?_⟩
  · intro resp body e hget hread hdec
    simp [buscaBrasilAPI, hget, hread, hdec]
  · intro resp body e hget hread hdec
    simp [buscaViaCEP, hget, hread, hdec]
  · intro msg
    exact ⟨rfl, rfl⟩
  · intro members k v hmem hstr hnull
    constructor
    · intro hk
      obtain ⟨e, he⟩ := unmarshalFields_wrong_type "BrasilAPIResponse" brasilAPIFields members
        k v hmem hk hstr hnull
      exact ⟨e, by simp [unmarshalBrasilAPIResponse, he]⟩
    · intro hk
      obtain ⟨e, he⟩ := unmarshalFields_wrong_type "ViaCEPResponse" viaCEPFields members
        k v hmem hk hstr hnull
      exact ⟨e, by simp [unmarshalViaCEPResponse, he]⟩
  · intro e e'
    constructor
    · intro h
      have h2 := congrArg String.data h
      simp [String.data_append] at h2
    · intro h
      have h2 := congrArg String.data h
      simp [String.data_append] at h2
  · intro r
    have hne : viaCEPURL cep ≠ brasilAPIURL cep := fun h => brasilAPIURL_ne_viaCEPURL cep cep h.symm
    simp [buscaViaCEP, Function.update_noteq hne]
  · intro r
    simp [buscaBrasilAPI, Function.update_noteq (brasilAPIURL_ne_viaCEPURL cep cep)]

/-- Instance of C7: ViaCEP answers with a `cep` that is a number, not a string;
`buscaViaCEP` returns the decode failure. -/
theorem decode_failure_reported_witness :
    buscaViaCEP
      (exampleNet (ok200 (exampleBrasilAPIBody "x"))
        (ok200 (.json (.obj [("cep", .num "1001000"), ("uf", .str "SP")]))))
      "01001000" =
        .error ("erro ao decodificar JSON: " ++
          "json: cannot unmarshal number into Go struct field ViaCEPResponse.cep of type string") :=
  (decode_failure_reported _ "01001000").2.1 _ _ _ rfl rfl rfl

/-- C8, as the code has it: a record an adapter returns as a success, and
hence a record `main` reports as the winning result, carries the decoded
body's `cep`, city and region unchanged and the adapter's own source tag; no
field is checked for emptiness, and the body `{}` is a success whose `Cep`,
`Localidade` and `Uf` are empty. -/
theorem success_fields_are_the_decoded_ones (net : Network) (cep : String) :
    (∀ rec, buscaBrasilAPI net cep = .ok rec →
      ∃ resp body d, net (brasilAPIURL cep) = .ok resp ∧ resp.Body = .ok body ∧
        unmarshalBrasilAPIResponse body = .ok d ∧
        rec.Cep = d.Cep ∧ rec.Localidade = d.City ∧ rec.Uf = d.State ∧
        rec.ApiSource = "BrasilAPI") ∧
    (∀ rec, buscaViaCEP net cep = .ok rec →
      ∃ resp body d, net (viaCEPURL cep) = .ok resp ∧ resp.Body = .ok body ∧
        unmarshalViaCEPResponse body = .ok d ∧
        rec.Cep = d.Cep ∧ rec.Localidade = d.Localidade ∧ rec.Uf = d.Uf ∧
        rec.ApiSource = "ViaCEP") ∧
    (∀ s rec, mainWith cep net s = some (Outcome.brasilAPI rec) →
      buscaBrasilAPI net cep = .ok rec) ∧
    (∀ s rec, mainWith cep net s = some (Outcome.viaCEP rec) → buscaViaCEP net cep = .ok rec) ∧
    (∀ status, net (brasilAPIURL cep) = .ok { StatusCode := status, Body := .ok (.json (.obj [])) } →
      buscaBrasilAPI net cep =
        .ok { Cep := "", Logradouro := "", Bairro := "", Localidade := "", Uf := "",
              ApiSource := "BrasilAPI" }) ∧
    (∀ status, net (viaCEPURL cep) = .ok { StatusCode := status, Body := .ok (.json (.obj [])) } →
      buscaViaCEP net cep =
        .ok { Cep := "", Logradouro := "", Bairro := "", Localidade := "", Uf := "",
              ApiSource := "ViaCEP" }) := by
  refine ⟨?_, ?_, fun s rec h => mainWith_brasilAPI_record cep net s rec h,
    fun s rec h => mainWith_viaCEP_record cep net s rec h, ?_, ?_⟩
  · intro rec h
    unfold buscaBrasilAPI at h
    split at h
    · cases h
    · rename_i resp hget
      split at h
      · cases h
      · rename_i body hread
        split at h
        · cases h
        · rename_i d hdec
          cases h
          exact ⟨resp, body, d, hget, hread, hdec, rfl, rfl, rfl, rfl⟩
  · intro rec h
    unfold buscaViaCEP at h
    split at h
    · cases h
    · rename_i resp hget
      split at h
      · cases h
      · rename_i body hread
        split at h
        · cases h
        · rename_i d hdec
          cases h
          exact ⟨resp, body, d, hget, hread, hdec, rfl, rfl, rfl, rfl⟩
  · intro status hget
    have hdec : unmarshalBrasilAPIResponse (.json (.obj [])) =
        .ok { Cep := "", State := "", City := "", Neighborhood := "", Street := "",
              Service := "" } := rfl
    simp [buscaBrasilAPI, hget, hdec]
  · intro status hget
    have hdec : unmarshalViaCEPResponse (.json (.obj [])) =
        .ok { Cep := "", Logradouro := "", Complemento := "", Bairro := "", Localidade := "",
              Uf := "", Ibge := "", Gia := "", Ddd := "", Siafi := "" } := rfl
    simp [buscaViaCEP, hget, hdec]

/-- Instance of C8 as the code has it: ViaCEP answers `{}` and `buscaViaCEP`
returns a success with every address field empty. -/
theorem success_fields_are_the_decoded_ones_witness :
    buscaViaCEP (exampleNet (.error "no such host") (ok200 (.json (.obj [])))) "01001000" =
      .ok { Cep := "", Logradouro := "", Bairro := "", Localidade := "", Uf := "",
            ApiSource := "ViaCEP" } :=
  (success_fields_are_the_decoded_ones _ "01001000").2.2.2.2.2 200 rfl

/-- C8 fails as stated: BrasilAPI answers `{}`, which decodes; `buscaBrasilAPI`
returns a success whose `Cep`, `Localidade` and `Uf` are empty, and `main`
reports that record as the winning result. -/
theorem empty_record_reported_as_success :
    buscaBrasilAPI (exampleNet (ok200 (.json (.obj []))) (.error "no such host")) "01001000" =
        .ok { Cep := "", Logradouro := "", Bairro := "", Localidade := "", Uf := "",
              ApiSource := "BrasilAPI" } ∧
      main (exampleNet (ok200 (.json (.obj []))) (.error "no such host")) (scheduleAt 100000000 200000000) =
        some (Outcome.brasilAPI { Cep := "", Logradouro := "", Bairro := "", Localidade := "",
                                  Uf := "", ApiSource := "BrasilAPI" }) := by
  decide

/-- C9: when an adapter fails, its goroutine sends on `canalErro` the adapter's
error description behind the provider's own marker, `erro na BrasilAPI: ` or
`erro no ViaCEP: `, and nothing on the record channels; the two markers never
produce the same text, and an error `main` reports is the marked error of an
adapter that did fail. -/
theorem task_error_names_provider (net : Network) (cep : String) :
    (∀ e ch, buscaBrasilAPI net cep = .error e → ch.canalErro = none →
      goBrasilAPI net cep ch = { ch with canalErro := some ("erro na BrasilAPI: " ++ e) }) ∧
    (∀ e ch, buscaViaCEP net cep = .error e → ch.canalErro = none →
      goViaCEP net cep ch = { ch with canalErro := some ("erro no ViaCEP: " ++ e) }) ∧
    (∀ e1 e2 : String, "erro na BrasilAPI: " ++ e1 ≠ "erro no ViaCEP: " ++ e2) ∧
    (∀ s m, mainWith cep net s = some (Outcome.erro m) →
      (∃ e, buscaBrasilAPI net cep = .error e ∧ m = "erro na BrasilAPI: " ++ e) ∨
        (∃ e, buscaViaCEP net cep = .error e ∧ m = "erro no ViaCEP: " ++ e)) := by
  refine ⟨?_, ?_, erro_brasilAPI_ne_erro_viaCEP, fun s m h => mainWith_erro_origin cep net s m h⟩
  · intro e ch hB hc
    simp [goBrasilAPI, hB, hc, send]
  · intro e ch hV hc
    simp [goViaCEP, hV, hc, send]

/-- Instance of C9: the BrasilAPI request fails and its goroutine, sending
first, leaves the marked error on `canalErro`. -/
theorem task_error_names_provider_witness :
    goBrasilAPI (exampleNet (.error "connection refused") (.error "no such host")) "01001000"
        Chans.empty =
      { Chans.empty with
        canalErro := some ("erro na BrasilAPI: " ++ "erro ao fazer requisição: connection refused") } :=
  (task_error_names_provider _ "01001000").1 _ Chans.empty rfl rfl

/-- C10: an adapter's result does not depend on the status code of the
response: two responses with the same body give the same result, so under any
status the example body yields the success record and text that is not JSON
yields the decode failure. -/
theorem status_code_ignored (cep : String) (net net' : Network) (status status' : Nat) :
    (∀ body, net (brasilAPIURL cep) = .ok { StatusCode := status, Body := body } →
      net' (brasilAPIURL cep) = .ok { StatusCode := status', Body := body } →
      buscaBrasilAPI net cep = buscaBrasilAPI net' cep) ∧
    (∀ body, net (viaCEPURL cep) = .ok { StatusCode := status, Body := body } →
      net' (viaCEPURL cep) = .ok { StatusCode := status', Body := body } →
      buscaViaCEP net cep = buscaViaCEP net' cep) ∧
    (∀ service,
      net (brasilAPIURL cep) =
        .ok { StatusCode := status, Body := .ok (exampleBrasilAPIBody service) } →
      buscaBrasilAPI net cep = .ok exampleBrasilAPIRecord) ∧
    (∀ complemento,
      net (viaCEPURL cep) =
        .ok { StatusCode := status, Body := .ok (exampleViaCEPBody complemento) } →
      buscaViaCEP net cep = .ok exampleViaCEPRecord) ∧
    (∀ msg, net (brasilAPIURL cep) = .ok { StatusCode := status, Body := .ok (.invalid msg) } →
      buscaBrasilAPI net cep = .error ("erro ao decodificar JSON: " ++ msg)) ∧
    (∀ msg, net (viaCEPURL cep) = .ok { StatusCode := status, Body := .ok (.invalid msg) } →
      buscaViaCEP net cep = .error ("erro ao decodificar JSON: " ++ msg)) := by
  refine ⟨?_, ?_, ?_, ?_, ?_, ?_⟩
  · intro body h h'
    simp [buscaBrasilAPI, h, h']
  · intro body h h'
    simp [buscaViaCEP, h, h']
  · intro service h
    have hdec : unmarshalBrasilAPIResponse (exampleBrasilAPIBody service) =
        .ok { Cep := "01001000", State := "SP", City := "São Paulo", Neighborhood := "Sé",
              Street := "Praça da Sé", Service := service } := rfl
    simp [buscaBrasilAPI, h, hdec, exampleBrasilAPIRecord]
  · intro complemento h
    have hdec : unmarshalViaCEPResponse (exampleViaCEPBody complemento) =
        .ok { Cep := "01001-000", Logradouro := "Praça da Sé", Complemento := complemento,
              Bairro := "Sé", Localidade := "São Paulo", Uf := "SP", Ibge := "", Gia := "",
              Ddd := "", Siafi := "" } := rfl
    simp [buscaViaCEP, h, hdec, exampleViaCEPRecord]
  · intro msg h
    have hdec : unmarshalBrasilAPIResponse (.invalid msg) = .error msg := rfl
    simp [buscaBrasilAPI, h, hdec]
  · intro msg h
    have hdec : unmarshalViaCEPResponse (.invalid msg) = .error msg := rfl
    simp [buscaViaCEP, h, hdec]

/-- Instance of C10: the example body served with status 200 and with status
500 gives the same result from `buscaBrasilAPI`. -/
theorem status_code_ignored_witness :
    buscaBrasilAPI
        (exampleNet (.ok { StatusCode := 200, Body := .ok (exampleBrasilAPIBody "x") })
          (.error "no such host")) "01001000" =
      buscaBrasilAPI
        (exampleNet (.ok { StatusCode := 500, Body := .ok (exampleBrasilAPIBody "x") })
          (.error "no such host")) "01001000" :=
  (status_code_ignored "01001000" _ _ 200 500).1 _ rfl rfl

end CepRace
